import Mathlib

/-!
Shallow embedding of the OpenClaw Sentry plugin (src/index.ts).

The plugin translates host diagnostic events and log records into calls to
an external observability backend (Sentry).  The backend itself is outside
the repository; its interaction is modelled by the *list of backend
operations* each translator emits, together with a boolean parameter
recording whether `Sentry.startInactiveSpan` returned a span handle
(the code guards span mutation with `if (span)`), and a boolean recording
whether `Sentry.logger` is available.

JavaScript numbers are modelled as `Rat` for diagnostic payload fields
(epoch timestamps, millisecond durations, token counts, cost): the code
performs only one exact subtraction (`ts - duration`) and pass-through /
defaulting, so rationals are a faithful model.  Log-record positional
values that get stringified are modelled with integer numerics, where the
JavaScript `String()` conversion agrees with `Int.toString`.
-/

namespace OpenclawSentry

/-- A JavaScript primitive appearing in event payloads that may be either a
string or a number (`chatId`, `messageId` in `message.processed`). -/
inductive JsPrim where
  | str (s : String)
  | num (n : Int)
deriving DecidableEq, Repr

/-- JavaScript `String(v)` on a string-or-number primitive. -/
def JsPrim.jsString : JsPrim → String
  | .str s => s
  | .num n => toString n

/-- JavaScript truthiness of an optional string: `undefined` and `""` are
falsy (`if (evt.error)`, `evt.model ? ... : ...`, `if (!dsn)`). -/
def jsTruthy : Option String → Bool
  | none => false
  | some s => s ≠ ""

/-- Attribute values passed to `startInactiveSpan`: strings or numbers. -/
inductive AttrValue where
  | str (s : String)
  | num (n : Rat)
deriving DecidableEq, Repr

/-- The `usage` record of a `model.usage` event: all fields optional. -/
structure Usage where
  input : Option Rat := none
  output : Option Rat := none
  cacheRead : Option Rat := none
  cacheWrite : Option Rat := none
  total : Option Rat := none
deriving DecidableEq, Repr

/-- The `model.usage` diagnostic event payload. -/
structure ModelUsageEvent where
  ts : Rat
  durationMs : Option Rat := none
  model : Option String := none
  provider : Option String := none
  channel : Option String := none
  sessionKey : Option String := none
  costUsd : Option Rat := none
  usage : Usage := {}
deriving DecidableEq, Repr

/-- The `message.processed` diagnostic event payload. -/
structure MessageProcessedEvent where
  ts : Rat
  durationMs : Option Rat := none
  channel : String
  outcome : String
  sessionKey : Option String := none
  chatId : Option JsPrim := none
  messageId : Option JsPrim := none
  error : Option String := none
deriving DecidableEq, Repr

/-- The diagnostic event union dispatched by `handleDiagnosticEvent`.
`other` stands for every event kind the `switch` does not mention. -/
inductive DiagnosticEvent where
  | modelUsage (e : ModelUsageEvent)
  | messageProcessed (e : MessageProcessedEvent)
  | webhookError (error : String) (channel : String) (updateType : String)
  | sessionStuck (sessionKey : String) (ageMs : Rat) (state : String)
  | other (kind : String)
deriving DecidableEq, Repr

/-- One observable call to the backend client.  Tag values are optional
strings because the code passes possibly-undefined fields as tags
(`sessionKey: evt.sessionKey`). -/
inductive BackendOp where
  | startSpan (op : String) (name : String) (startTime : Rat)
      (forceTransaction : Bool) (attributes : List (String × AttrValue))
  | setStatus (code : Int) (message : String)
  | spanEnd (endTime : Rat)
  | captureMessage (text : String) (level : String)
      (tags : List (String × Option String))
deriving DecidableEq, Repr

/-- `recordModelUsage` (src/index.ts:105-141): one `ai.chat` span whose end
time is the event timestamp and whose duration falls back to 100 ms.
`spanAvail` records whether `startInactiveSpan` returned a handle; the
`span.end` call is guarded by `if (span)`. -/
def recordModelUsage (evt : ModelUsageEvent) (spanAvail : Bool) :
    List BackendOp :=
  let spanName :=
    if jsTruthy evt.model then "chat " ++ evt.model.getD "" else "chat unknown"
  let endTimeMs := evt.ts
  let durationMs := evt.durationMs.getD 100
  let startTimeMs := endTimeMs - durationMs
  BackendOp.startSpan "ai.chat" spanName startTimeMs true
    [("gen_ai.operation.name", .str "chat"),
     ("gen_ai.system", .str (evt.provider.getD "unknown")),
     ("gen_ai.request.model", .str (evt.model.getD "unknown")),
     ("gen_ai.usage.input_tokens", .num (evt.usage.input.getD 0)),
     ("gen_ai.usage.output_tokens", .num (evt.usage.output.getD 0)),
     ("openclaw.channel", .str (evt.channel.getD "unknown")),
     ("openclaw.session_key", .str (evt.sessionKey.getD "unknown")),
     ("openclaw.tokens.cache_read", .num (evt.usage.cacheRead.getD 0)),
     ("openclaw.tokens.cache_write", .num (evt.usage.cacheWrite.getD 0)),
     ("openclaw.tokens.total", .num (evt.usage.total.getD 0)),
     ("openclaw.cost_usd", .num (evt.costUsd.getD 0)),
     ("openclaw.duration_ms", .num durationMs)]
  :: (if spanAvail then [BackendOp.spanEnd endTimeMs] else [])

/-- `recordMessageProcessed` (src/index.ts:145-179): one `openclaw.message`
span with a 50 ms duration fallback; on `outcome == "error"` the span status
is set and, when `evt.error` is truthy, an error message is captured — all
inside the `if (span)` guard, in source order (setStatus, captureMessage,
span.end). -/
def recordMessageProcessed (evt : MessageProcessedEvent) (spanAvail : Bool) :
    List BackendOp :=
  let endTimeMs := evt.ts
  let durationMs := evt.durationMs.getD 50
  let startTimeMs := endTimeMs - durationMs
  BackendOp.startSpan "openclaw.message" ("message." ++ evt.outcome)
    startTimeMs true
    [("openclaw.channel", .str evt.channel),
     ("openclaw.outcome", .str evt.outcome),
     ("openclaw.session_key", .str (evt.sessionKey.getD "unknown")),
     ("openclaw.chat_id", .str (evt.chatId.getD (.str "")).jsString),
     ("openclaw.message_id", .str (evt.messageId.getD (.str "")).jsString),
     ("openclaw.duration_ms", .num durationMs)]
  :: (if spanAvail then
        (if evt.outcome = "error" then
          BackendOp.setStatus 2 (evt.error.getD "unknown error")
          :: (if jsTruthy evt.error then
                [BackendOp.captureMessage
                  ("Message processing error: " ++ evt.error.getD "")
                  "error"
                  [("channel", some evt.channel),
                   ("sessionKey", evt.sessionKey)]]
              else [])
         else [])
        ++ [BackendOp.spanEnd endTimeMs]
      else [])

/-- `handleDiagnosticEvent` (src/index.ts:74-101): dispatch on `evt.type`;
kinds not named in the `switch` fall through with no backend call. -/
def handleDiagnosticEvent (evt : DiagnosticEvent) (spanAvail : Bool) :
    List BackendOp :=
  match evt with
  | .modelUsage e => recordModelUsage e spanAvail
  | .messageProcessed e => recordMessageProcessed e spanAvail
  | .webhookError error channel updateType =>
      [BackendOp.captureMessage ("Webhook error: " ++ error) "error"
        [("channel", some channel), ("updateType", some updateType)]]
  | .sessionStuck sessionKey ageMs state =>
      [BackendOp.captureMessage
        ("Session stuck: " ++ sessionKey ++ " (" ++ toString ageMs.num ++ "ms)")
        "warning"
        [("sessionKey", some sessionKey), ("state", some state)]]
  | .other _ => []

/-- A value stored under a key of a host log record.  Positional values are
strings or numbers here; `Int.toString` matches JavaScript `String()` on
integers, the only numerics the embedding stringifies. -/
inductive LogValue where
  | str (s : String)
  | num (n : Int)
deriving DecidableEq, Repr

/-- JavaScript `String(v)` on a log value. -/
def LogValue.jsString : LogValue → String
  | .str s => s
  | .num n => toString n

/-- The `_meta` entry of a host log record. -/
structure LogMeta where
  logLevelName : Option String := none
  name : Option String := none
deriving DecidableEq, Repr

/-- A host log record: its enumerable entries in insertion order (the
`Object.entries` view, digit-keyed positional arguments among them) plus
the typed `_meta` entry the code reads via `logObj._meta`. -/
structure LogRecord where
  entries : List (String × LogValue)
  meta : Option LogMeta := none
deriving DecidableEq, Repr

/-- The regular expression test of src/index.ts:192: the key is one or more
ASCII digits (`\d` matches exactly 0-9). -/
def isDigitKey (k : String) : Bool :=
  !k.data.isEmpty && k.data.all Char.isDigit

/-- JavaScript `Number(k)` on an all-digit key, read left to right. -/
def keyNum (k : String) : Nat :=
  k.data.foldl (fun a c => a * 10 + (c.toNat - 48)) 0

/-- Comparator of the `toSorted` call: ascending numeric key order. -/
def keyLe (a b : String × LogValue) : Prop :=
  keyNum a.1 ≤ keyNum b.1

instance : DecidableRel keyLe := fun a b => by
  unfold keyLe; infer_instance

instance : IsTotal (String × LogValue) keyLe :=
  ⟨fun a b => Nat.le_total (keyNum a.1) (keyNum b.1)⟩

instance : IsTrans (String × LogValue) keyLe :=
  ⟨fun _ _ _ hab hbc => Nat.le_trans hab hbc⟩

/-- The digit-keyed entries of a record, sorted ascending by the numeric
value of the key (src/index.ts:191-193); a stable sort, as `toSorted` is. -/
def numericEntries (r : LogRecord) : List (String × LogValue) :=
  List.insertionSort keyLe (r.entries.filter fun e => isDigitKey e.1)

/-- The positional argument values in numeric key order
(src/index.ts:191-194). -/
def positionalArgs (r : LogRecord) : List LogValue :=
  (numericEntries r).map Prod.snd

/-- Message selection of src/index.ts:196-204: pop the last positional
value when it is a string; otherwise a single remaining value is
stringified and consumed; an empty (falsy) message becomes `"log"`.
Returns the message and the residual positional values. -/
def extractMessage (args : List LogValue) : String × List LogValue :=
  let step :=
    match args.getLast? with
    | some (.str s) => (s, args.dropLast)
    | _ =>
      match args with
      | [v] => (v.jsString, [])
      | _ => ("", args)
  if step.1 = "" then ("log", step.2) else step

/-- A severity level of the backend's structured-log facility. -/
inductive LogLevel where
  | debug
  | info
  | warn
  | error
deriving DecidableEq, Repr

/-- JavaScript `toLowerCase()`, character by character over the string's
character list, exactly as `String.toLower` maps `Char.toLower`. -/
def toLowerString (s : String) : String :=
  ⟨s.data.map Char.toLower⟩

/-- Severity normalization of src/index.ts:188 and the `switch` of
src/index.ts:221-235: lower-case the host level name (default `"INFO"`),
fold `trace` into debug and `fatal` into error, default to info. -/
def normalizeLevel (levelName : Option String) : LogLevel :=
  let level := toLowerString (levelName.getD "INFO")
  if level = "debug" ∨ level = "trace" then .debug
  else if level = "warn" then .warn
  else if level = "error" ∨ level = "fatal" then .error
  else .info

/-- A minimal JSON string escape; faithful to `JSON.stringify` on strings
free of control characters, which is all the development evaluates. -/
def jsonEscape (s : String) : String :=
  s.toList.foldr
    (fun c acc =>
      if c = '\\' then "\\\\" ++ acc
      else if c = '\"' then "\\\"" ++ acc
      else String.singleton c ++ acc) ""

/-- `JSON.stringify` of the residual positional-argument array. -/
def jsonStringifyArgs (vs : List LogValue) : String :=
  "[" ++ String.intercalate ","
    (vs.map fun v =>
      match v with
      | .str s => "\"" ++ jsonEscape s ++ "\""
      | .num n => toString n) ++ "]"

/-- One call to `Sentry.logger.{debug,info,warn,error}`. -/
structure LogCall where
  level : LogLevel
  message : String
  attributes : List (String × String)
deriving DecidableEq, Repr

/-- `forwardLog` (src/index.ts:183-236).  `loggerAvail` records whether
`Sentry.logger` is defined; when it is not, the function returns without
a call (src/index.ts:209-210). -/
def forwardLog (r : LogRecord) (loggerAvail : Bool) : Option LogCall :=
  let level := normalizeLevel (r.meta.bind LogMeta.logLevelName)
  let parsed := extractMessage (positionalArgs r)
  let loggerName := (r.meta.bind LogMeta.name).getD "openclaw"
  if loggerAvail then
    some
      { level := level
        message := parsed.1
        attributes :=
          ("openclaw.logger", loggerName)
          :: (if parsed.2.length > 0 then
                [("openclaw.args", jsonStringifyArgs parsed.2)]
              else []) }
  else none

/-- The subscription-handle state closed over by `createSentryService`
(src/index.ts:7-8); a handle is an abstract identifier. -/
structure SvcState where
  unsubDiag : Option Nat := none
  unsubLogs : Option Nat := none
deriving DecidableEq, Repr

/-- An observable action of `stop` (src/index.ts:62-68). -/
inductive StopAction where
  | callUnsub (id : Nat)
  | flush (timeoutMs : Nat)
deriving DecidableEq, Repr

/-- Is this stop action an unsubscribe call? -/
def StopAction.isUnsub : StopAction → Bool
  | .callUnsub _ => true
  | _ => false

/-- `stop` (src/index.ts:62-68): call each held unsubscribe handle (the
optional-chaining call `unsubDiag?.()` is a no-op on `null`), null both
handles, then flush with a 5000 ms timeout, the flush rejection caught. -/
def stop (s : SvcState) : SvcState × List StopAction :=
  (⟨none, none⟩,
    (match s.unsubDiag with | some i => [StopAction.callUnsub i] | none => [])
    ++ (match s.unsubLogs with | some i => [StopAction.callUnsub i] | none => [])
    ++ [StopAction.flush 5000])

/-- Modelled from the spec: the backend client is an external collaborator
(§1, §6); per §6/§7 `flush` always resolves and, while the backend "stays
uninitialized" (§4.1), pending telemetry cannot exist, so a flush call has
an observable effect only when `init` has been called. -/
def flushHasObservableEffect (backendInitialized : Bool) : Bool :=
  backendInitialized

/-- The recognized plugin configuration block (src/index.ts:16-18). -/
structure SentryConfig where
  dsn : Option String := none
  environment : Option String := none
  tracesSampleRate : Option Rat := none
  enableLogs : Option Bool := none
deriving DecidableEq, Repr

/-- The options object passed to `Sentry.init` (src/index.ts:28-33). -/
structure InitOptions where
  dsn : String
  environment : String
  tracesSampleRate : Rat
  enableLogs : Bool
deriving DecidableEq, Repr

/-- The observable outcome of one `start` call (src/index.ts:13-60). -/
structure StartResult where
  initCalls : List InitOptions
  diagSubscribed : Bool
  logsSubscribed : Bool
  warnMessages : List String
  infoMessages : List String
  state : SvcState
deriving DecidableEq, Repr

/-- `start` (src/index.ts:13-60): a falsy `dsn` (absent or empty) logs one
warning and returns before any `init` or subscription; otherwise the SDK is
initialized with the documented defaults and the two sources are
subscribed, logs only when `enableLogs !== false`. -/
def start (pluginCfg : Option SentryConfig) : StartResult :=
  let dsn := pluginCfg.bind SentryConfig.dsn
  if jsTruthy dsn then
    let d := dsn.getD ""
    let environment := (pluginCfg.bind SentryConfig.environment).getD "production"
    let enableLogs : Bool := (pluginCfg.bind SentryConfig.enableLogs) != some false
    { initCalls :=
        [{ dsn := d
           environment := environment
           tracesSampleRate :=
             (pluginCfg.bind SentryConfig.tracesSampleRate).getD 1
           enableLogs := enableLogs }]
      diagSubscribed := true
      logsSubscribed := enableLogs
      warnMessages := []
      infoMessages :=
        ["sentry: initialized (dsn=..." ++ d.takeRight 12 ++ ", env="
           ++ environment ++ ", logs=" ++ toString enableLogs ++ ")",
         "sentry: subscribed to diagnostic events"]
        ++ (if enableLogs then ["sentry: subscribed to log transport"] else [])
      state := { unsubDiag := some 0
                 unsubLogs := if enableLogs then some 1 else none } }
  else
    { initCalls := []
      diagSubscribed := false
      logsSubscribed := false
      warnMessages := ["sentry: no DSN configured — skipping init"]
      infoMessages := []
      state := {} }

/-- The diagnostic dispatch boundary (src/index.ts:40-46): translation of
one event modelled as a fallible function; a translation fault is caught
and turned into one warning on the host logger, the handler itself always
returns. -/
def diagnosticHandler (translate : DiagnosticEvent → Except String (List BackendOp))
    (evt : DiagnosticEvent) : List BackendOp × List String :=
  match translate evt with
  | .ok ops => (ops, [])
  | .error err => ([], ["sentry: diagnostic handler error: " ++ err])

/-- Sequential delivery of diagnostic events, one handler call per event
(§5: delivery is synchronous, one at a time). -/
def processDiagnostics (translate : DiagnosticEvent → Except String (List BackendOp))
    (evts : List DiagnosticEvent) : List (List BackendOp × List String) :=
  evts.map (diagnosticHandler translate)

/-- The log dispatch boundary (src/index.ts:51-57): a translation fault is
swallowed with no backend call and no warning. -/
def logHandler (translate : LogRecord → Except String (Option LogCall))
    (r : LogRecord) : Option LogCall × List String :=
  match translate r with
  | .ok c => (c, [])
  | .error _ => (none, [])

/-- Is this backend operation a `captureMessage` call? -/
def BackendOp.isCapture : BackendOp → Bool
  | .captureMessage _ _ _ => true
  | _ => false

/-- Is this backend operation a `span.setStatus` call? -/
def BackendOp.isSetStatus : BackendOp → Bool
  | .setStatus _ _ => true
  | _ => false

/-- Start time of the first span started by an operation list, if any. -/
def spanStart? : List BackendOp → Option Rat
  | [] => none
  | .startSpan _ _ t _ _ :: _ => some t
  | _ :: rest => spanStart? rest

/-- End time of the first `span.end` call in an operation list, if any. -/
def spanEnd? : List BackendOp → Option Rat
  | [] => none
  | .spanEnd t :: _ => some t
  | _ :: rest => spanEnd? rest

/-- Attribute map of the first span started by an operation list. -/
def spanAttrs : List BackendOp → List (String × AttrValue)
  | [] => []
  | .startSpan _ _ _ _ attrs :: _ => attrs
  | _ :: rest => spanAttrs rest

/-- Status message of the first `setStatus` call in an operation list. -/
def statusMessage? : List BackendOp → Option String
  | [] => none
  | .setStatus _ m :: _ => some m
  | _ :: rest => statusMessage? rest

/-- C2: for every `model.usage` event the emitted span ends at the event's
`ts`, its duration is `durationMs` when present and 100 ms otherwise, and it
starts at `ts` minus that duration; for every `message.processed` event the
same holds with a 50 ms default. -/
theorem span_timing (e : ModelUsageEvent) (f : MessageProcessedEvent) :
    spanEnd? (recordModelUsage e true) = some e.ts ∧
    spanStart? (recordModelUsage e true) = some (e.ts - e.durationMs.getD 100) ∧
    (spanAttrs (recordModelUsage e true)).lookup "openclaw.duration_ms"
      = some (.num (e.durationMs.getD 100)) ∧
    spanEnd? (recordMessageProcessed f true) = some f.ts ∧
    spanStart? (recordMessageProcessed f true) = some (f.ts - f.durationMs.getD 50) ∧
    (spanAttrs (recordMessageProcessed f true)).lookup "openclaw.duration_ms"
      = some (.num (f.durationMs.getD 50)) := by
  refine ⟨rfl, rfl, rfl, ?_, rfl, rfl⟩
  by_cases h : f.outcome = "error" <;> cases h2 : jsTruthy f.error <;>
    simp [recordMessageProcessed, spanEnd?, h, h2]

/-- C7: for every `model.usage` event, each optional field that is absent
maps — independently of every other field — to its documented default in
the span attributes: 0 for the numeric fields, `"unknown"` for the string
fields; the translator is a total function (no translation step can fail
on an absent optional field), and it always emits the span operations. -/
theorem modelUsage_defaults (evt : ModelUsageEvent) :
    (evt.provider = none →
      (spanAttrs (recordModelUsage evt true)).lookup "gen_ai.system"
        = some (.str "unknown")) ∧
    (evt.model = none →
      (spanAttrs (recordModelUsage evt true)).lookup "gen_ai.request.model"
        = some (.str "unknown")) ∧
    (evt.channel = none →
      (spanAttrs (recordModelUsage evt true)).lookup "openclaw.channel"
        = some (.str "unknown")) ∧
    (evt.sessionKey = none →
      (spanAttrs (recordModelUsage evt true)).lookup "openclaw.session_key"
        = some (.str "unknown")) ∧
    (evt.usage.input = none →
      (spanAttrs (recordModelUsage evt true)).lookup "gen_ai.usage.input_tokens"
        = some (.num 0)) ∧
    (evt.usage.output = none →
      (spanAttrs (recordModelUsage evt true)).lookup "gen_ai.usage.output_tokens"
        = some (.num 0)) ∧
    (evt.usage.cacheRead = none →
      (spanAttrs (recordModelUsage evt true)).lookup "openclaw.tokens.cache_read"
        = some (.num 0)) ∧
    (evt.usage.cacheWrite = none →
      (spanAttrs (recordModelUsage evt true)).lookup "openclaw.tokens.cache_write"
        = some (.num 0)) ∧
    (evt.usage.total = none →
      (spanAttrs (recordModelUsage evt true)).lookup "openclaw.tokens.total"
        = some (.num 0)) ∧
    (evt.costUsd = none →
      (spanAttrs (recordModelUsage evt true)).lookup "openclaw.cost_usd"
        = some (.num 0)) ∧
    (recordModelUsage evt true).length = 2 := by
  refine ⟨?_, ?_, ?_, ?_, ?_, ?_, ?_, ?_, ?_, ?_, rfl⟩ <;> intro h <;>
    simp [recordModelUsage, spanAttrs, List.lookup, h]

/-- A `model.usage` event mixing present and absent optional fields:
model, duration and input tokens present, all other optional fields
absent. -/
def mixedUsageEvent : ModelUsageEvent :=
  { ts := 1700000000000
    durationMs := some 250
    model := some "gpt-4"
    usage := { input := some 100 } }

/-- Witness for C7 at `mixedUsageEvent`: every absent optional field of
the mixed event yields its default attribute value. -/
theorem modelUsage_defaults_witness :
    mixedUsageEvent.provider = none ∧
    mixedUsageEvent.channel = none ∧
    mixedUsageEvent.sessionKey = none ∧
    mixedUsageEvent.costUsd = none ∧
    mixedUsageEvent.usage.output = none ∧
    mixedUsageEvent.usage.cacheRead = none ∧
    mixedUsageEvent.usage.cacheWrite = none ∧
    mixedUsageEvent.usage.total = none ∧
    (spanAttrs (recordModelUsage mixedUsageEvent true)).lookup "gen_ai.system"
      = some (.str "unknown") ∧
    (spanAttrs (recordModelUsage mixedUsageEvent true)).lookup "openclaw.channel"
      = some (.str "unknown") ∧
    (spanAttrs (recordModelUsage mixedUsageEvent true)).lookup "openclaw.session_key"
      = some (.str "unknown") ∧
    (spanAttrs (recordModelUsage mixedUsageEvent true)).lookup "openclaw.cost_usd"
      = some (.num 0) ∧
    (spanAttrs (recordModelUsage mixedUsageEvent true)).lookup "gen_ai.usage.output_tokens"
      = some (.num 0) ∧
    (spanAttrs (recordModelUsage mixedUsageEvent true)).lookup "openclaw.tokens.cache_read"
      = some (.num 0) ∧
    (spanAttrs (recordModelUsage mixedUsageEvent true)).lookup "openclaw.tokens.cache_write"
      = some (.num 0) ∧
    (spanAttrs (recordModelUsage mixedUsageEvent true)).lookup "openclaw.tokens.total"
      = some (.num 0) := by
  obtain ⟨h1, _h2, h3, h4, _h5, h6, h7, h8, h9, h10, _⟩ :=
    modelUsage_defaults mixedUsageEvent
  exact ⟨rfl, rfl, rfl, rfl, rfl, rfl, rfl, rfl,
         h1 rfl, h3 rfl, h4 rfl, h10 rfl, h6 rfl, h7 rfl, h8 rfl, h9 rfl⟩

/-- C3: `stop` with no prior `start` returns normally, performs no
unsubscribe call (both optional-chained calls are no-ops on `null`), and is
idempotent — a second `stop` finds both handles nulled and again performs
no unsubscribe; the unconditional flush targets an uninitialized backend
and so has no observable effect. -/
theorem stop_without_start_is_noop :
    stop ⟨none, none⟩ = (⟨none, none⟩, [StopAction.flush 5000]) ∧
    ((stop ⟨none, none⟩).2.all fun a => !a.isUnsub) = true ∧
    (∀ s : SvcState, ((stop (stop s).1).2.all fun a => !a.isUnsub) = true) ∧
    flushHasObservableEffect false = false := by
  refine ⟨rfl, rfl, fun s => rfl, rfl⟩

/-- C9: a configuration with no `dsn` makes `start` log exactly one warning
and return with no `Sentry.init` call and no subscription to either event
source. -/
theorem start_without_dsn_inert (cfg : Option SentryConfig)
    (h : cfg.bind SentryConfig.dsn = none) :
    (start cfg).initCalls = [] ∧
    (start cfg).diagSubscribed = false ∧
    (start cfg).logsSubscribed = false ∧
    (start cfg).state = ⟨none, none⟩ ∧
    (start cfg).warnMessages = ["sentry: no DSN configured — skipping init"] := by
  simp [start, h, jsTruthy]

/-- Witness for C9 at the empty configuration. -/
theorem start_without_dsn_inert_witness :
    (none : Option SentryConfig).bind SentryConfig.dsn = none ∧
    ((start none).initCalls = [] ∧
     (start none).diagSubscribed = false ∧
     (start none).logsSubscribed = false ∧
     (start none).state = ⟨none, none⟩ ∧
     (start none).warnMessages = ["sentry: no DSN configured — skipping init"]) :=
  ⟨rfl, start_without_dsn_inert none rfl⟩

/-- C10: for a `message.processed` event with outcome `"error"` and the
`error` field present, the status update and the error-message capture
happen only inside the `if (span)` guard: when `startInactiveSpan` returns
no handle neither is emitted, and any emission implies a handle was
returned. -/
theorem error_ops_require_span (evt : MessageProcessedEvent)
    (_h1 : evt.outcome = "error") (_h2 : evt.error.isSome = true) :
    ((recordMessageProcessed evt false).all
      fun op => !op.isSetStatus && !op.isCapture) = true ∧
    (∀ b : Bool,
      (∃ op ∈ recordMessageProcessed evt b,
        op.isSetStatus = true ∨ op.isCapture = true) → b = true) := by
  constructor
  · simp [recordMessageProcessed, BackendOp.isSetStatus, BackendOp.isCapture]
  · intro b hb
    cases b with
    | true => rfl
    | false =>
      rcases hb with ⟨op, hmem, hop⟩
      simp [recordMessageProcessed] at hmem
      rcases hmem with rfl
      · simp [BackendOp.isSetStatus, BackendOp.isCapture] at hop

/-- Witness for C10 at a concrete errored event. -/
theorem error_ops_require_span_witness :
    ({ ts := 1000, channel := "c", outcome := "error",
       error := some "boom" : MessageProcessedEvent }.outcome = "error") ∧
    ({ ts := 1000, channel := "c", outcome := "error",
       error := some "boom" : MessageProcessedEvent }.error.isSome = true) ∧
    (((recordMessageProcessed
        { ts := 1000, channel := "c", outcome := "error", error := some "boom" }
        false).all fun op => !op.isSetStatus && !op.isCapture) = true ∧
     (∀ b : Bool,
      (∃ op ∈ recordMessageProcessed
          { ts := 1000, channel := "c", outcome := "error", error := some "boom" } b,
        op.isSetStatus = true ∨ op.isCapture = true) → b = true)) :=
  ⟨rfl, rfl, error_ops_require_span _ rfl rfl⟩

/-- C8: a translation fault on one diagnostic event is caught at the
subscription boundary and becomes one host-logger warning; the handler
returns normally, and every other event of the sequence is processed
exactly as it would be alone.  A fault while translating a log record is
swallowed with no warning and no backend call. -/
theorem handler_fault_isolation
    (translate : DiagnosticEvent → Except String (List BackendOp))
    (es1 es2 : List DiagnosticEvent) (bad : DiagnosticEvent) (msg : String)
    (h : translate bad = .error msg) :
    processDiagnostics translate (es1 ++ bad :: es2)
      = processDiagnostics translate es1
        ++ ([], ["sentry: diagnostic handler error: " ++ msg])
          :: processDiagnostics translate es2 ∧
    (∀ (t : LogRecord → Except String (Option LogCall)) (r : LogRecord)
       (m : String), t r = .error m → logHandler t r = (none, [])) := by
  constructor
  · simp [processDiagnostics, diagnosticHandler, h]
  · intro t r m ht
    simp [logHandler, ht]

/-- Witness for C8: a translator that faults on every event, applied to a
three-event sequence whose middle event faults. -/
theorem handler_fault_isolation_witness :
    ((fun _ : DiagnosticEvent =>
        (Except.error "boom" : Except String (List BackendOp)))
      (.other "queue.lane.depth") = .error "boom") ∧
    (processDiagnostics
        (fun _ => (Except.error "boom" : Except String (List BackendOp)))
        ([.other "a"] ++ DiagnosticEvent.other "queue.lane.depth" :: [.other "b"])
      = processDiagnostics
          (fun _ => (Except.error "boom" : Except String (List BackendOp)))
          [.other "a"]
        ++ ([], ["sentry: diagnostic handler error: " ++ "boom"])
          :: processDiagnostics
              (fun _ => (Except.error "boom" : Except String (List BackendOp)))
              [.other "b"] ∧
     (∀ (t : LogRecord → Except String (Option LogCall)) (r : LogRecord)
        (m : String), t r = .error m → logHandler t r = (none, []))) :=
  ⟨rfl, handler_fault_isolation _ _ _ _ _ rfl⟩

/-- C1 as stated is too strong: with the `error` field present but equal to
the empty string, the guard `if (evt.error)` takes the falsy branch, so the
event's error is present yet no message capture is emitted. -/
theorem empty_error_capture_counterexample :
    ({ ts := 0, channel := "c", outcome := "error",
       error := some "" : MessageProcessedEvent }.error.isSome = true) ∧
    (((recordMessageProcessed
        { ts := 0, channel := "c", outcome := "error", error := some "" }
        true).all fun op => !op.isCapture) = true) :=
  ⟨rfl, rfl⟩

/-- C1 (amended): for a `message.processed` event with outcome `"error"`
whose span is emitted, the span status is set to error code 2 with the
event's error text when present (`"unknown error"` when absent), and the
`"Message processing error: ..."` capture tagged with the event's channel
and session key is emitted if and only if the error field is present and
non-empty. -/
theorem error_status_and_capture (evt : MessageProcessedEvent)
    (h : evt.outcome = "error") :
    BackendOp.setStatus 2 (evt.error.getD "unknown error")
      ∈ recordMessageProcessed evt true ∧
    ((∃ op ∈ recordMessageProcessed evt true, op.isCapture = true)
      ↔ ∃ s, evt.error = some s ∧ s ≠ "") ∧
    (∀ s, evt.error = some s → s ≠ "" →
      BackendOp.captureMessage ("Message processing error: " ++ s) "error"
          [("channel", some evt.channel), ("sessionKey", evt.sessionKey)]
        ∈ recordMessageProcessed evt true) := by
  refine ⟨?_, ?_, ?_⟩
  · cases h2 : jsTruthy evt.error <;> simp [recordMessageProcessed, h, h2]
  · cases he : evt.error with
    | none => simp [recordMessageProcessed, h, he, jsTruthy, BackendOp.isCapture]
    | some s =>
      by_cases hs : s = ""
      · subst hs
        simp [recordMessageProcessed, h, he, jsTruthy, BackendOp.isCapture]
      · simp [recordMessageProcessed, h, he, jsTruthy, hs, BackendOp.isCapture]
  · intro s hse hsne
    simp [recordMessageProcessed, h, hse, jsTruthy, hsne]

/-- Witness for the amended C1 at the `"boom"` event of the spec. -/
theorem error_status_and_capture_witness :
    ({ ts := 1000, channel := "c", outcome := "error",
       error := some "boom" : MessageProcessedEvent }.outcome = "error") ∧
    (BackendOp.setStatus 2
        (({ ts := 1000, channel := "c", outcome := "error",
            error := some "boom" : MessageProcessedEvent }).error.getD
          "unknown error")
      ∈ recordMessageProcessed
          { ts := 1000, channel := "c", outcome := "error", error := some "boom" }
          true ∧
     ((∃ op ∈ recordMessageProcessed
          { ts := 1000, channel := "c", outcome := "error", error := some "boom" }
          true, op.isCapture = true)
       ↔ ∃ s, ({ ts := 1000, channel := "c", outcome := "error",
                 error := some "boom" : MessageProcessedEvent }).error = some s
              ∧ s ≠ "") ∧
     (∀ s, ({ ts := 1000, channel := "c", outcome := "error",
              error := some "boom" : MessageProcessedEvent }).error = some s →
        s ≠ "" →
        BackendOp.captureMessage ("Message processing error: " ++ s) "error"
            [("channel", some "c"), ("sessionKey", none)]
          ∈ recordMessageProcessed
              { ts := 1000, channel := "c", outcome := "error",
                error := some "boom" }
              true)) :=
  ⟨rfl, error_status_and_capture _ rfl⟩

/-- C4 as stated is off by the attribute key: the logger identity is
emitted under `"openclaw.logger"`, and the attribute map of the emitted
structured-log call has no entry under the bare key `"logger"`. -/
theorem logger_key_counterexample :
    forwardLog ⟨[], none⟩ true
      = some ⟨.info, "log", [("openclaw.logger", "openclaw")]⟩ ∧
    List.lookup "logger" [("openclaw.logger", ("openclaw" : String))] = none :=
  ⟨by decide, by decide⟩

/-- C4 (amended): for every log record the logger identity taken from
`record._meta.name` (default `"openclaw"`) is emitted under the attribute
key `"openclaw.logger"` of the structured-log call. -/
theorem logger_attribute (r : LogRecord) :
    (forwardLog r true).map
        (fun c => c.attributes.lookup "openclaw.logger")
      = some (some ((r.meta.bind LogMeta.name).getD "openclaw")) := by
  simp [forwardLog]

/-- C5: the positional arguments of a log record are exactly its
digit-keyed entries ordered by the numeric value of the key, independent of
insertion order, and the spec's example record is routed to the backend's
`warn` call with message `"hello"` (the earlier positional value riding
along as the serialized `openclaw.args` attribute). -/
theorem positional_args_sorted :
    (∀ r : LogRecord,
      (numericEntries r).Perm (r.entries.filter fun e => isDigitKey e.1) ∧
      List.Sorted keyLe (numericEntries r)) ∧
    forwardLog ⟨[("0", .str "subsystem-x"), ("1", .str "hello")],
        some ⟨some "WARN", none⟩⟩ true
      = some ⟨.warn, "hello",
          [("openclaw.logger", "openclaw"),
           ("openclaw.args", "[\"subsystem-x\"]")]⟩ ∧
    forwardLog ⟨[("1", .str "hello"), ("0", .str "subsystem-x")],
        some ⟨some "WARN", none⟩⟩ true
      = some ⟨.warn, "hello",
          [("openclaw.logger", "openclaw"),
           ("openclaw.args", "[\"subsystem-x\"]")]⟩ :=
  ⟨fun _ => ⟨List.perm_insertionSort _ _, List.sorted_insertionSort _ _⟩,
   by decide, by decide⟩

/-- C6: severity normalization is case-insensitive (it depends only on the
lower-cased level name), maps `trace` with `debug` to debug, `warn` to
warn, `fatal` with `error` to error, anything else — including an absent
level name — to info, and the emitted structured-log call is dispatched at
exactly the resolved level. -/
theorem severity_normalization :
    normalizeLevel none = .info ∧
    (∀ s t : String, toLowerString s = toLowerString t →
      normalizeLevel (some s) = normalizeLevel (some t)) ∧
    (∀ s : String, toLowerString s = "trace" → normalizeLevel (some s) = .debug) ∧
    (∀ s : String, toLowerString s = "debug" → normalizeLevel (some s) = .debug) ∧
    (∀ s : String, toLowerString s = "warn" → normalizeLevel (some s) = .warn) ∧
    (∀ s : String, toLowerString s = "error" → normalizeLevel (some s) = .error) ∧
    (∀ s : String, toLowerString s = "fatal" → normalizeLevel (some s) = .error) ∧
    (∀ s : String,
      toLowerString s ∉ (["debug", "trace", "warn", "error", "fatal"] : List String) →
      normalizeLevel (some s) = .info) ∧
    (∀ r : LogRecord, (forwardLog r true).map LogCall.level
      = some (normalizeLevel (r.meta.bind LogMeta.logLevelName))) := by
  refine ⟨by decide, ?_, ?_, ?_, ?_, ?_, ?_, ?_, ?_⟩
  · intro s t h; simp [normalizeLevel, h]
  · intro s h; simp [normalizeLevel, h]
  · intro s h; simp [normalizeLevel, h]
  · intro s h; simp [normalizeLevel, h]
  · intro s h; simp [normalizeLevel, h]
  · intro s h; simp [normalizeLevel, h]
  · intro s h
    simp only [List.mem_cons, List.not_mem_nil, or_false, not_or] at h
    obtain ⟨h1, h2, h3, h4, h5⟩ := h
    simp [normalizeLevel, h1, h2, h3, h4, h5]
  · intro r; simp [forwardLog]

/-- Witness for C6 at the upper-case level name `"TRACE"`. -/
theorem severity_normalization_witness :
    toLowerString "TRACE" = "trace" ∧
    normalizeLevel (some "TRACE") = .debug :=
  ⟨by decide, severity_normalization.2.2.1 "TRACE" (by decide)⟩

end OpenclawSentry
